import Mathlib

/-!
Verification development for the pdf-merge service.

The repository contains two variants of the `/api/merge` request handler:
`src/src/app/api/merge/route.ts` (in-process compression only, modelled in
namespace `MergeRoute`) and `src/unnamed/part_001` (external Ghostscript
compression with in-process fallback, modelled in namespace `CompressRoute`).
Both share the same merge loop over the pdf-lib document model, embedded
below.  The pdf-lib library itself is an external collaborator; it is
modelled through the interface the spec documents for it: load a document
from bytes (may fail), enumerate page indices, copy pages, serialize with
save options, set metadata fields.
-/

namespace PdfMerge

/-- A page is an opaque identity; copying preserves it. -/
abbrev Page := Nat

/-- Document metadata fields settable through the pdf-lib document model
(`setTitle`, `setAuthor`, `setSubject`, `setKeywords`, `setCreationDate`,
`setModificationDate`).  Dates are abstract timestamps. -/
structure Metadata where
  title : Option String
  author : Option String
  subject : Option String
  keywords : Option (List String)
  creationDate : Nat
  modificationDate : Nat
  deriving DecidableEq, Repr

/-- An in-memory pdf-lib document: an ordered page list plus metadata. -/
structure PDFDoc where
  pages : List Page
  meta : Metadata
  deriving DecidableEq, Repr

/-- pdf-lib `SaveOptions`; the field defaults are pdf-lib's documented
defaults, so `{}` is the option record of a plain `doc.save()` call. -/
structure SaveOptions where
  useObjectStreams : Bool := true
  addDefaultPage : Bool := true
  objectsPerTick : Nat := 50
  deriving DecidableEq, Repr

/-- A byte buffer, kept symbolic: either the serialization of a document
with given save options, or the output file the external compressor wrote
for a given input document and level. -/
inductive Bytes where
  | saved (doc : PDFDoc) (opts : SaveOptions)
  | gsOutput (input : PDFDoc) (level : Int)
  deriving DecidableEq, Repr

/-- Byte length of a buffer, used only to fill the Content-Length header.
The real length is determined by the serializer; the model uses a fixed
stand-in function of the buffer. -/
def byteLen : Bytes → Nat
  | Bytes.saved doc _ => doc.pages.length
  | Bytes.gsOutput input _ => input.pages.length

/-- The HTTP response produced by a handler: either a 200 file download
with its headers, or a JSON error object with a status code. -/
inductive Response where
  | file (body : Bytes) (headers : List (String × String))
  | jsonError (status : Nat) (error : String) (details : Option String)
  deriving DecidableEq, Repr

/-- HTTP status of a response (`NextResponse` file responses are 200). -/
def Response.status : Response → Nat
  | Response.file _ _ => 200
  | Response.jsonError s _ _ => s

/-- The binary body of a response, if it has one. -/
def Response.bodyBytes : Response → Option Bytes
  | Response.file b _ => some b
  | Response.jsonError _ _ _ => none

/-- The `error` field of a JSON error response, if any. -/
def Response.errorMessage : Response → Option String
  | Response.file _ _ => none
  | Response.jsonError _ e _ => some e

/-- Value of a response header, if the response carries it. -/
def Response.headerValue (r : Response) (k : String) : Option String :=
  match r with
  | Response.file _ hs => (hs.find? (fun p => p.1 = k)).map (fun p => p.2)
  | Response.jsonError _ _ _ => none

/-- An incoming request: the `files` form parts, each recorded by the
result `PDFDocument.load` would give on its bytes (`none` = unparseable),
and the raw `compressionLevel` form field (`none` = field absent). -/
structure Request where
  files : List (Option PDFDoc)
  compressionLevel : Option String
  deriving DecidableEq, Repr

/-- JS `formData.get("compressionLevel") as string || "0"`: both a missing
field (`null`) and an empty string are falsy and replaced by "0". -/
def rawLevel (req : Request) : String :=
  match req.compressionLevel with
  | none => "0"
  | some s => if s = "" then "0" else s

/-- Leading decimal digits of a character list, `none` when there are
none (the NaN case of `parseInt`). -/
def parseDigits (cs : List Char) : Option Nat :=
  let ds := cs.takeWhile Char.isDigit
  if ds.isEmpty then none
  else some (ds.foldl (fun acc c => acc * 10 + (c.toNat - 48)) 0)

/-- JS `parseInt(s)` in base 10: skip leading whitespace, optional sign,
then leading digits; `none` models NaN. -/
def parseIntJS (s : String) : Option Int :=
  match s.toList.dropWhile Char.isWhitespace with
  | '-' :: rest => (parseDigits rest).map (fun n => -(n : Int))
  | '+' :: rest => (parseDigits rest).map (fun n => (n : Int))
  | cs => (parseDigits cs).map (fun n => (n : Int))

/-- The handlers' validation test `compressionLevel < 0 || compressionLevel > 2`.
JS comparisons with NaN are false, so a NaN level is NOT flagged invalid. -/
def levelInvalid : Option Int → Bool
  | some n => decide (n < 0) || decide (2 < n)
  | none => false

/-- JS `compressionLevel > 0` (false for NaN). -/
def jsGtZero : Option Int → Bool
  | some n => decide (0 < n)
  | none => false

/-- JS `compressionLevel.toString()` (`"NaN"` for NaN). -/
def jsToString : Option Int → String
  | some n => toString n
  | none => "NaN"

/-- Metadata of a freshly created document (`PDFDocument.create()` stamps
the creation/modification dates; the info-dictionary text fields start
unset). -/
def createMeta (now : Nat) : Metadata :=
  { title := none, author := none, subject := none, keywords := none
    creationDate := now, modificationDate := now }

/-- `PDFDocument.create()`. -/
def PDFDocument_create (now : Nat) : PDFDoc :=
  { pages := [], meta := createMeta now }

/-- `pdf.getPageIndices()`: the indices `0, ..., pageCount - 1`. -/
def getPageIndices (pdf : PDFDoc) : List Nat :=
  List.range pdf.pages.length

/-- `target.copyPages(src, indices)`: the pages of `src` at the given
indices, in index order, content preserved. -/
def copyPages (src : PDFDoc) (indices : List Nat) : List Page :=
  indices.filterMap (fun i => src.pages.get? i)

/-- `mergedPdf.addPage(page)` iterated over a copied page list. -/
def addPages (target : PDFDoc) (ps : List Page) : PDFDoc :=
  { target with pages := target.pages ++ ps }

/-- Message of the error `PDFDocument.load` throws on unparseable bytes
(library-generated text). -/
def loadErrorMessage : String := "Failed to parse PDF document"

/-- The shared merge loop of both handlers:
for each file, load it (throw on failure), copy all its pages into the
accumulator in order. -/
def mergeLoop (acc : PDFDoc) : List (Option PDFDoc) → Except String PDFDoc
  | [] => Except.ok acc
  | f :: rest =>
    match f with
    | none => Except.error loadErrorMessage
    | some pdf => mergeLoop (addPages acc (copyPages pdf (getPageIndices pdf))) rest

/-- The whole merge stage: a fresh document accumulating every input's
pages in input order. -/
def mergeAll (now : Nat) (files : List (Option PDFDoc)) : Except String PDFDoc :=
  mergeLoop (PDFDocument_create now) files

/-- The merged document the merge stage produces on all-parseable inputs:
the concatenation of the inputs' page lists with create-time metadata. -/
def mergedDoc (now : Nat) (docs : List PDFDoc) : PDFDoc :=
  { pages := (docs.map PDFDoc.pages).flatten, meta := createMeta now }

/-- A request whose uploaded files all parse to the given documents. -/
def mkReq (docs : List PDFDoc) (raw : Option String) : Request :=
  { files := docs.map some, compressionLevel := raw }

theorem filterMap_range_get {α : Type} (l : List α) :
    List.filterMap (fun i => l.get? i) (List.range l.length) = l := by
  induction l with
  | nil => rfl
  | cons a t ih =>
    rw [List.length_cons, List.range_succ_eq_map, List.filterMap_cons]
    simp only [List.get?_cons_zero, List.filterMap_map]
    have : (fun i => (a :: t).get? i) ∘ Nat.succ = fun i => t.get? i := by
      funext i
      simp
    rw [this, ih]

theorem copyPages_getPageIndices (pdf : PDFDoc) :
    copyPages pdf (getPageIndices pdf) = pdf.pages :=
  filterMap_range_get pdf.pages

theorem mergeLoop_map_some (docs : List PDFDoc) (acc : PDFDoc) :
    mergeLoop acc (docs.map some) =
      Except.ok { pages := acc.pages ++ (docs.map PDFDoc.pages).flatten, meta := acc.meta } := by
  induction docs generalizing acc with
  | nil => simp [mergeLoop]
  | cons d t ih =>
    rw [List.map_cons, mergeLoop, copyPages_getPageIndices, ih]
    simp [addPages, List.append_assoc]

theorem mergeAll_map_some (now : Nat) (docs : List PDFDoc) :
    mergeAll now (docs.map some) = Except.ok (mergedDoc now docs) := by
  rw [mergeAll, mergeLoop_map_some]
  rfl

theorem mergeLoop_none (pre post : List (Option PDFDoc)) (acc : PDFDoc) :
    mergeLoop acc (pre ++ none :: post) = Except.error loadErrorMessage := by
  induction pre generalizing acc with
  | nil => rfl
  | cons f t ih =>
    cases f with
    | none => rfl
    | some pdf => rw [List.cons_append, mergeLoop]; exact ih _

/-- `doc.setTitle(t)`. -/
def setTitle (doc : PDFDoc) (t : String) : PDFDoc :=
  { doc with meta := { doc.meta with title := some t } }

/-- `doc.setAuthor(a)`. -/
def setAuthor (doc : PDFDoc) (a : String) : PDFDoc :=
  { doc with meta := { doc.meta with author := some a } }

/-- `doc.setSubject(s)`. -/
def setSubject (doc : PDFDoc) (s : String) : PDFDoc :=
  { doc with meta := { doc.meta with subject := some s } }

/-- `doc.setKeywords(ks)`. -/
def setKeywords (doc : PDFDoc) (ks : List String) : PDFDoc :=
  { doc with meta := { doc.meta with keywords := some ks } }

/-- `doc.setCreationDate(d)`. -/
def setCreationDate (doc : PDFDoc) (d : Nat) : PDFDoc :=
  { doc with meta := { doc.meta with creationDate := d } }

/-- `doc.setModificationDate(d)`. -/
def setModificationDate (doc : PDFDoc) (d : Nat) : PDFDoc :=
  { doc with meta := { doc.meta with modificationDate := d } }

/-- The metadata the high-compression path of `route.ts` writes: its
pipeline defaults. -/
def pipelineMeta (now : Nat) : Metadata :=
  { title := some "Merged PDF", author := some "PDF Merger"
    subject := some "Merged Documents", keywords := some ["merged", "pdf"]
    creationDate := now, modificationDate := now }

/-- `PDFDocument.load(await doc.save(opts))`: loading bytes that were just
serialized from a document succeeds and recovers that document. -/
def PDF_reload (doc : PDFDoc) (_ : SaveOptions) : PDFDoc := doc

namespace MergeRoute

/-- The `POST` handler of `src/src/app/api/merge/route.ts`, with `now` the
request-time clock value (used by `PDFDocument.create()` and `new Date()`). -/
def POST (now : Nat) (req : Request) : Response :=
  let lv := parseIntJS (rawLevel req)
  if req.files.length = 0 then
    Response.jsonError 400 "No PDF files uploaded." none
  else if levelInvalid lv then
    Response.jsonError 400 "Invalid compression level." none
  else
    match mergeAll now req.files with
    | Except.error msg => Response.jsonError 500 "Failed to merge PDFs" (some msg)
    | Except.ok mergedPdf =>
      let mergedBytes : Bytes :=
        if lv = some 0 then
          Bytes.saved mergedPdf {}
        else if lv = some 1 then
          Bytes.saved mergedPdf
            { useObjectStreams := true, addDefaultPage := false, objectsPerTick := 50 }
        else
          let optimizedPdf := PDF_reload mergedPdf
            { useObjectStreams := true, addDefaultPage := false, objectsPerTick := 20 }
          let o1 := setTitle optimizedPdf "Merged PDF"
          let o2 := setAuthor o1 "PDF Merger"
          let o3 := setSubject o2 "Merged Documents"
          let o4 := setKeywords o3 ["merged", "pdf"]
          let o5 := setCreationDate o4 now
          let o6 := setModificationDate o5 now
          Bytes.saved o6 { useObjectStreams := true, objectsPerTick := 10 }
      Response.file mergedBytes
        [("Content-Type", "application/pdf"),
         ("Content-Disposition",
           "attachment; filename=\"merged" ++
             (if jsGtZero lv then "_compressed" else "") ++ ".pdf\""),
         ("Content-Length", toString (byteLen mergedBytes)),
         ("X-Compression-Level", jsToString lv)]

end MergeRoute

namespace CompressRoute

/-- Environment of one request to the `src/unnamed/part_001` handler:
whether `gs --version` succeeds, whether the invoked `gs` command exits
nonzero, whether it leaves an output file behind, and whether the final
`fs.rm` of the temp directory fails. -/
structure Env where
  gsAvailable : Bool
  gsExitsNonzero : Bool
  gsProducesOutput : Bool
  rmFails : Bool
  deriving DecidableEq, Repr

/-- Observable side effects of one request, in order. -/
inductive Event where
  | mkdtemp
  | probeGs
  | fallbackSave (objectsPerTick : Nat)
  | runGs (level : Int)
  | rmTemp (ok : Bool)
  deriving DecidableEq, Repr

/-- Outcome of one request: the response plus the effect trace, whether a
temp directory was created, and whether one remains on disk afterwards. -/
structure ExecOut where
  response : Response
  events : List Event
  tempDirCreated : Bool
  tempDirRemains : Bool
  deriving DecidableEq, Repr

/-- The Ghostscript invocation of the handler (`execAsync(gsCommand)` then
`fs.readFile(tempOutputPath)`): a nonzero exit or a missing output file
throws into the handler's catch block. -/
def gsInvoke (gsExitsNonzero gsProducesOutput : Bool) (mergedPdf : PDFDoc)
    (n : Int) : Response × List Event × Bool :=
  if gsExitsNonzero then
    (Response.jsonError 500 "Failed to process PDFs" (some "Command failed"),
     [Event.mkdtemp, Event.probeGs, Event.runGs n], true)
  else if gsProducesOutput = false then
    (Response.jsonError 500 "Failed to process PDFs"
       (some "ENOENT: no such file or directory"),
     [Event.mkdtemp, Event.probeGs, Event.runGs n], true)
  else
    let compressedBuffer := Bytes.gsOutput mergedPdf n
    (Response.file compressedBuffer
       [("Content-Type", "application/pdf"),
        ("Content-Disposition", "attachment; filename=\"merged_compressed.pdf\""),
        ("Content-Length", toString (byteLen compressedBuffer)),
        ("X-Compression-Method", "ghostscript"),
        ("X-Compression-Level", toString n)],
     [Event.mkdtemp, Event.probeGs, Event.runGs n], true)

/-- The try/catch body of the `src/unnamed/part_001` handler: returns the
response, the events so far, and whether the temp directory was created.
The Ghostscript-related environment booleans are passed explicitly; the
`finally` cleanup is layered on top in `POST`. -/
def POST_try (gsAvailable gsExitsNonzero gsProducesOutput : Bool)
    (now : Nat) (req : Request) : Response × List Event × Bool :=
  let lv := parseIntJS (rawLevel req)
  if req.files.length = 0 then
    (Response.jsonError 400 "No PDF files uploaded." none, [], false)
  else if levelInvalid lv then
    (Response.jsonError 400 "Invalid compression level." none, [], false)
  else
    match mergeAll now req.files with
    | Except.error msg =>
      (Response.jsonError 500 "Failed to process PDFs" (some msg), [], false)
    | Except.ok mergedPdf =>
      let mergedBytes := Bytes.saved mergedPdf {}
      if lv = some 0 then
        (Response.file mergedBytes
           [("Content-Type", "application/pdf"),
            ("Content-Disposition", "attachment; filename=\"merged.pdf\""),
            ("Content-Length", toString (byteLen mergedBytes))], [], false)
      else if gsAvailable = false then
        let saveOptions : SaveOptions :=
          if lv = some 1 then { useObjectStreams := true, objectsPerTick := 50 }
          else { useObjectStreams := true, objectsPerTick := 20 }
        let compressedBytes := Bytes.saved mergedPdf saveOptions
        (Response.file compressedBytes
           [("Content-Type", "application/pdf"),
            ("Content-Disposition", "attachment; filename=\"merged_compressed.pdf\""),
            ("Content-Length", toString (byteLen compressedBytes))],
         [Event.mkdtemp, Event.probeGs, Event.fallbackSave saveOptions.objectsPerTick],
         true)
      else
        match lv with
        | some 1 => gsInvoke gsExitsNonzero gsProducesOutput mergedPdf 1
        | some 2 => gsInvoke gsExitsNonzero gsProducesOutput mergedPdf 2
        | _ =>
          -- With a NaN level the switch sets no command, `execAsync("")`
          -- runs the empty shell command successfully, and reading the
          -- never-created output file throws into the catch block.
          (Response.jsonError 500 "Failed to process PDFs"
             (some "ENOENT: no such file or directory"),
           [Event.mkdtemp, Event.probeGs], true)

/-- The `POST` handler of `src/unnamed/part_001`: the try/catch body plus
the `finally` block, which removes the temp directory when one was created
and swallows any cleanup error. -/
def POST (env : Env) (now : Nat) (req : Request) : ExecOut :=
  let t := POST_try env.gsAvailable env.gsExitsNonzero env.gsProducesOutput now req
  { response := t.1
    events := t.2.1 ++ (if t.2.2 then [Event.rmTemp (!env.rmFails)] else [])
    tempDirCreated := t.2.2
    tempDirRemains := t.2.2 && env.rmFails }

end CompressRoute

/-- Sample three-page input document. -/
def docA : PDFDoc := { pages := [1, 2, 3], meta := createMeta 0 }

/-- Sample two-page input document. -/
def docB : PDFDoc := { pages := [4, 5], meta := createMeta 0 }

/-- Sample zero-page input document. -/
def docZ : PDFDoc := { pages := [], meta := createMeta 0 }

/-- Environment in which the `gs --version` probe fails. -/
def envGsDown : CompressRoute.Env :=
  { gsAvailable := false, gsExitsNonzero := false, gsProducesOutput := false
    rmFails := false }

/-- Environment in which Ghostscript is available and works. -/
def envGsOk : CompressRoute.Env :=
  { gsAvailable := true, gsExitsNonzero := false, gsProducesOutput := true
    rmFails := false }

/-- Environment in which Ghostscript is available but exits nonzero. -/
def envGsBroken : CompressRoute.Env :=
  { gsAvailable := true, gsExitsNonzero := true, gsProducesOutput := false
    rmFails := false }

/-- C1: for every request whose N ≥ 1 input files all parse, the merge
stage used by both handlers produces exactly the concatenation of the
inputs' page sequences, in input order and preserving each document's
internal page order, and the output page count is the sum of the inputs'
page counts — no pages added, removed, or reordered. -/
theorem merge_pages_concat (now : Nat) (docs : List PDFDoc) (_hne : docs ≠ []) :
    mergeAll now (docs.map some) = Except.ok (mergedDoc now docs) ∧
    (mergedDoc now docs).pages = (docs.map PDFDoc.pages).flatten ∧
    (mergedDoc now docs).pages.length = (docs.map (fun d => d.pages.length)).sum := by
  refine ⟨mergeAll_map_some now docs, rfl, ?_⟩
  simp only [mergedDoc, List.length_flatten, List.map_map]
  rfl

/-- C1 witness: merging a 3-page and a 2-page document. -/
theorem merge_pages_concat_witness :
    mergeAll 0 ([docA, docB].map some) = Except.ok (mergedDoc 0 [docA, docB]) ∧
    (mergedDoc 0 [docA, docB]).pages = ([docA, docB].map PDFDoc.pages).flatten ∧
    (mergedDoc 0 [docA, docB]).pages.length =
      ([docA, docB].map (fun d => d.pages.length)).sum :=
  merge_pages_concat 0 [docA, docB] (by decide)

/-- C2: with `compressionLevel = 0` both handlers return exactly the plain
default serialization of the merged document as the body, and the
`part_001` handler performs no external effects at all on that path — in
particular Ghostscript is neither probed nor invoked. -/
theorem level0_plain_default_save (env : CompressRoute.Env) (now : Nat)
    (docs : List PDFDoc) (raw : Option String) (hne : docs ≠ [])
    (hlv : parseIntJS (rawLevel (mkReq docs raw)) = some 0) :
    (CompressRoute.POST env now (mkReq docs raw)).events = [] ∧
    (CompressRoute.POST env now (mkReq docs raw)).response.bodyBytes =
      some (Bytes.saved (mergedDoc now docs) {}) ∧
    (MergeRoute.POST now (mkReq docs raw)).bodyBytes =
      some (Bytes.saved (mergedDoc now docs) {}) := by
  have hfiles : (mkReq docs raw).files = docs.map some := rfl
  have hlen : ¬ (docs.length = 0) := by simpa using hne
  have hmerge := mergeAll_map_some now docs
  refine ⟨?_, ?_, ?_⟩ <;>
    simp [CompressRoute.POST, CompressRoute.POST_try, MergeRoute.POST, hfiles, hlen,
      hlv, hmerge, levelInvalid, Response.bodyBytes]

/-- C2 witness: one parseable file at level "0" in a Ghostscript-capable
environment. -/
theorem level0_plain_default_save_witness :
    (CompressRoute.POST envGsOk 1 (mkReq [docA] (some "0"))).events = [] ∧
    (CompressRoute.POST envGsOk 1 (mkReq [docA] (some "0"))).response.bodyBytes =
      some (Bytes.saved (mergedDoc 1 [docA]) {}) ∧
    (MergeRoute.POST 1 (mkReq [docA] (some "0"))).bodyBytes =
      some (Bytes.saved (mergedDoc 1 [docA]) {}) :=
  level0_plain_default_save envGsOk 1 [docA] (some "0") (by decide) (by decide)

/-- C3 counterexample: at level 1 with Ghostscript unavailable the
`part_001` handler does fall back and succeed, but the fallback response
carries no compression-method annotation (only the Ghostscript path sets
the `X-Compression-Method` header), so the response does NOT report that
the in-process rewrite was the method actually executed, contrary to the
claim. -/
theorem fallback_reports_no_method :
    (CompressRoute.POST envGsDown 0 (mkReq [docA] (some "1"))).response.status = 200 ∧
    (CompressRoute.POST envGsDown 0 (mkReq [docA] (some "1"))).response.headerValue
      "X-Compression-Method" = none := by
  constructor <;> rfl

/-- C3 amended: with `compressionLevel ∈ {1,2}` and the probe reporting
Ghostscript unavailable, the `part_001` handler silently falls back to the
in-process rewrite (`objectsPerTick` 50 for Medium, 20 for High), the
response succeeds with that rewrite as the body, and Ghostscript is never
invoked — but the response does not report which method ran: no method
annotation is attached on the fallback path. -/
theorem fallback_silent_success (env : CompressRoute.Env) (now : Nat)
    (docs : List PDFDoc) (raw : Option String) (n : Int)
    (hgs : env.gsAvailable = false) (hne : docs ≠ [])
    (hlv : parseIntJS (rawLevel (mkReq docs raw)) = some n) (hn : n = 1 ∨ n = 2) :
    (CompressRoute.POST env now (mkReq docs raw)).response.status = 200 ∧
    (CompressRoute.POST env now (mkReq docs raw)).response.bodyBytes =
      some (Bytes.saved (mergedDoc now docs)
        { useObjectStreams := true
          objectsPerTick := if n = 1 then 50 else 20 }) ∧
    CompressRoute.Event.fallbackSave (if n = 1 then 50 else 20) ∈
      (CompressRoute.POST env now (mkReq docs raw)).events ∧
    (∀ m : Int, CompressRoute.Event.runGs m ∉
      (CompressRoute.POST env now (mkReq docs raw)).events) ∧
    (CompressRoute.POST env now (mkReq docs raw)).response.headerValue
      "X-Compression-Method" = none := by
  have hfiles : (mkReq docs raw).files = docs.map some := rfl
  have hlen : ¬ (docs.length = 0) := by simpa using hne
  have hmerge := mergeAll_map_some now docs
  rcases hn with rfl | rfl <;>
    refine ⟨?_, ?_, ?_, ?_, ?_⟩ <;>
      simp [CompressRoute.POST, CompressRoute.POST_try, hfiles, hlen, hlv, hmerge,
        hgs, levelInvalid, Response.status, Response.bodyBytes, Response.headerValue]

/-- C3 amended witness: level "2" with Ghostscript unavailable. -/
theorem fallback_silent_success_witness :
    (CompressRoute.POST envGsDown 3 (mkReq [docA] (some "2"))).response.status = 200 ∧
    CompressRoute.Event.fallbackSave 20 ∈
      (CompressRoute.POST envGsDown 3 (mkReq [docA] (some "2"))).events ∧
    CompressRoute.Event.runGs 2 ∉
      (CompressRoute.POST envGsDown 3 (mkReq [docA] (some "2"))).events := by
  have h := fallback_silent_success envGsDown 3 [docA] (some "2") 2 rfl
    (by decide) (by decide) (Or.inr rfl)
  exact ⟨h.1, h.2.2.1, h.2.2.2.1 2⟩

/-- C4: with `compressionLevel ∈ {1,2}`, Ghostscript available and the
invocation failing (nonzero exit, or no output file produced), the
`part_001` request fails with the 500 processing-failure response (the
spec's `CompressionFailed`), returns no body, and never attempts the
in-process fallback after the failed invocation. -/
theorem gs_failure_terminal (env : CompressRoute.Env) (now : Nat)
    (docs : List PDFDoc) (raw : Option String) (n : Int)
    (hgs : env.gsAvailable = true) (hne : docs ≠ [])
    (hfail : env.gsExitsNonzero = true ∨ env.gsProducesOutput = false)
    (hlv : parseIntJS (rawLevel (mkReq docs raw)) = some n) (hn : n = 1 ∨ n = 2) :
    (CompressRoute.POST env now (mkReq docs raw)).response.status = 500 ∧
    (CompressRoute.POST env now (mkReq docs raw)).response.errorMessage =
      some "Failed to process PDFs" ∧
    (CompressRoute.POST env now (mkReq docs raw)).response.bodyBytes = none ∧
    CompressRoute.Event.runGs n ∈ (CompressRoute.POST env now (mkReq docs raw)).events ∧
    (∀ k : Nat, CompressRoute.Event.fallbackSave k ∉
      (CompressRoute.POST env now (mkReq docs raw)).events) := by
  have hfiles : (mkReq docs raw).files = docs.map some := rfl
  have hlen : ¬ (docs.length = 0) := by simpa using hne
  have hmerge := mergeAll_map_some now docs
  have hinv : ∃ d, CompressRoute.gsInvoke env.gsExitsNonzero env.gsProducesOutput
      (mergedDoc now docs) n =
      (Response.jsonError 500 "Failed to process PDFs" (some d),
       [CompressRoute.Event.mkdtemp, CompressRoute.Event.probeGs,
        CompressRoute.Event.runGs n], true) := by
    cases hz : env.gsExitsNonzero with
    | true => exact ⟨"Command failed", by simp [CompressRoute.gsInvoke]⟩
    | false =>
      have hp : env.gsProducesOutput = false := by
        rcases hfail with hf | hf
        · rw [hz] at hf; exact absurd hf (by simp)
        · exact hf
      exact ⟨"ENOENT: no such file or directory", by simp [CompressRoute.gsInvoke, hp]⟩
  obtain ⟨d, hd⟩ := hinv
  rcases hn with rfl | rfl <;>
    refine ⟨?_, ?_, ?_, ?_, ?_⟩ <;>
      simp [CompressRoute.POST, CompressRoute.POST_try, hfiles, hlen, hlv, hmerge,
        hgs, hd, levelInvalid, Response.status, Response.errorMessage, Response.bodyBytes]

/-- C4 witness: level "2" with Ghostscript available but exiting nonzero. -/
theorem gs_failure_terminal_witness :
    (CompressRoute.POST envGsBroken 2 (mkReq [docA] (some "2"))).response.status = 500 ∧
    CompressRoute.Event.runGs 2 ∈
      (CompressRoute.POST envGsBroken 2 (mkReq [docA] (some "2"))).events ∧
    CompressRoute.Event.fallbackSave 20 ∉
      (CompressRoute.POST envGsBroken 2 (mkReq [docA] (some "2"))).events := by
  have h := gs_failure_terminal envGsBroken 2 [docA] (some "2") 2 rfl (by decide)
    (Or.inl rfl) (by decide) (Or.inr rfl)
  exact ⟨h.1, h.2.2.2.1, h.2.2.2.2 20⟩

/-- C5 counterexample: a non-numeric `compressionLevel` ("abc") parses to
NaN, both NaN comparisons in the range check are false, so validation
passes and both handlers process the request to completion with a 200 file
response instead of returning the claimed 400 `ValidationError` before
parsing. -/
theorem nonnumeric_level_not_rejected :
    (MergeRoute.POST 0 (mkReq [docA] (some "abc"))).status = 200 ∧
    (CompressRoute.POST envGsDown 0 (mkReq [docA] (some "abc"))).response.status = 200 := by
  constructor <;> rfl

/-- C5 amended: a `compressionLevel` whose `parseInt` value is a number
outside {0,1,2} (e.g. "3" or "-1") is rejected by both handlers with the
400 "Invalid compression level." response before any input document is
parsed or merged — the result is the same for arbitrary (even unparseable)
file lists and no effect is performed.  A non-numeric string is NOT
rejected: it parses to NaN, which passes the range check. -/
theorem invalid_numeric_level_rejected (env : CompressRoute.Env) (now : Nat)
    (files : List (Option PDFDoc)) (raw : Option String) (n : Int)
    (hne : files ≠ [])
    (hlv : parseIntJS (rawLevel { files := files, compressionLevel := raw }) = some n)
    (hbad : n < 0 ∨ 2 < n) :
    MergeRoute.POST now { files := files, compressionLevel := raw } =
      Response.jsonError 400 "Invalid compression level." none ∧
    (CompressRoute.POST env now { files := files, compressionLevel := raw }).response =
      Response.jsonError 400 "Invalid compression level." none ∧
    (CompressRoute.POST env now { files := files, compressionLevel := raw }).events = [] := by
  have hinv : levelInvalid (some n) = true := by
    simp only [levelInvalid, Bool.or_eq_true, decide_eq_true_eq]
    exact hbad
  have hlen : ¬ (files.length = 0) := by simpa using hne
  refine ⟨?_, ?_, ?_⟩ <;>
    simp [MergeRoute.POST, CompressRoute.POST, CompressRoute.POST_try, hlv, hinv, hlen]

/-- C5 amended witness: level "3" with an unparseable file that is never
touched. -/
theorem invalid_numeric_level_rejected_witness :
    MergeRoute.POST 0 { files := [none], compressionLevel := some "3" } =
      Response.jsonError 400 "Invalid compression level." none ∧
    (CompressRoute.POST envGsOk 0 { files := [none], compressionLevel := some "3" }).response =
      Response.jsonError 400 "Invalid compression level." none ∧
    (CompressRoute.POST envGsOk 0 { files := [none], compressionLevel := some "3" }).events = [] :=
  invalid_numeric_level_rejected envGsOk 0 [none] (some "3") 3 (by decide) (by decide)
    (Or.inr (by decide))

/-- C6 counterexample: a request containing an unparseable input is aborted
by both handlers through the generic catch block with HTTP status 500, not
the claimed 400. -/
theorem unparseable_input_status_500 :
    (MergeRoute.POST 0 { files := [none], compressionLevel := some "0" }).status = 500 ∧
    (CompressRoute.POST envGsOk 0
      { files := [none], compressionLevel := some "0" }).response.status = 500 := by
  constructor <;> rfl

/-- C6 amended: a request containing an input that fails to parse is
aborted as a whole — both handlers return a JSON error with the load
failure as details and no partial merged body — but the status carried is
500 (the generic catch), not 400. -/
theorem unparseable_input_aborts (env : CompressRoute.Env) (now : Nat)
    (pre post : List (Option PDFDoc)) (raw : Option String)
    (hlv : levelInvalid (parseIntJS (rawLevel
      { files := pre ++ none :: post, compressionLevel := raw })) = false) :
    MergeRoute.POST now { files := pre ++ none :: post, compressionLevel := raw } =
      Response.jsonError 500 "Failed to merge PDFs" (some loadErrorMessage) ∧
    (CompressRoute.POST env now
      { files := pre ++ none :: post, compressionLevel := raw }).response =
      Response.jsonError 500 "Failed to process PDFs" (some loadErrorMessage) ∧
    (CompressRoute.POST env now
      { files := pre ++ none :: post, compressionLevel := raw }).response.bodyBytes = none := by
  have hlen : ¬ ((pre ++ none :: post).length = 0) := by simp
  have hmerge : mergeAll now (pre ++ none :: post) = Except.error loadErrorMessage :=
    mergeLoop_none pre post _
  refine ⟨?_, ?_, ?_⟩ <;>
    simp [MergeRoute.POST, CompressRoute.POST, CompressRoute.POST_try, hlv, hlen,
      hmerge, Response.bodyBytes]

/-- C6 amended witness: a single corrupt file at the default level. -/
theorem unparseable_input_aborts_witness :
    MergeRoute.POST 0 { files := [none], compressionLevel := none } =
      Response.jsonError 500 "Failed to merge PDFs" (some loadErrorMessage) ∧
    (CompressRoute.POST envGsOk 0 { files := [none], compressionLevel := none }).response =
      Response.jsonError 500 "Failed to process PDFs" (some loadErrorMessage) ∧
    (CompressRoute.POST envGsOk 0
      { files := [none], compressionLevel := none }).response.bodyBytes = none :=
  unparseable_input_aborts envGsOk 0 [] [] none (by decide)

/-- C7 counterexample: a level-2 request to the `part_001` handler with
Ghostscript unavailable returns the in-process rewrite of the merged
document whose metadata is still the create-time metadata — title, author,
subject, keywords and timestamps are NOT reset to the pipeline defaults. -/
theorem high_level_keeps_metadata :
    (CompressRoute.POST envGsDown 4 (mkReq [docA] (some "2"))).response.bodyBytes =
      some (Bytes.saved { pages := [1, 2, 3], meta := createMeta 4 }
        { useObjectStreams := true, objectsPerTick := 20 }) ∧
    createMeta 4 ≠ pipelineMeta 4 := by
  constructor
  · rfl
  · decide

/-- C7 amended: the metadata reset is a feature of the `route.ts` handler
only: there, every level-2 request rewrites the merged document with
title, author, subject, keywords, creation and modification dates reset to
the pipeline defaults before the final save.  The `part_001` handler does
not reset metadata on its in-process path. -/
theorem high_level_metadata_reset (now : Nat) (docs : List PDFDoc)
    (raw : Option String) (hne : docs ≠ [])
    (hlv : parseIntJS (rawLevel (mkReq docs raw)) = some 2) :
    (MergeRoute.POST now (mkReq docs raw)).bodyBytes =
      some (Bytes.saved
        { pages := (docs.map PDFDoc.pages).flatten, meta := pipelineMeta now }
        { useObjectStreams := true, objectsPerTick := 10 }) := by
  have hfiles : (mkReq docs raw).files = docs.map some := rfl
  have hlen : ¬ (docs.length = 0) := by simpa using hne
  have hmerge := mergeAll_map_some now docs
  simp [MergeRoute.POST, hfiles, hlen, hlv, hmerge, levelInvalid, Response.bodyBytes,
    PDF_reload, setTitle, setAuthor, setSubject, setKeywords, setCreationDate,
    setModificationDate, mergedDoc, pipelineMeta, createMeta]

/-- C7 amended witness: level "2" through `route.ts`. -/
theorem high_level_metadata_reset_witness :
    (MergeRoute.POST 9 (mkReq [docA] (some "2"))).bodyBytes =
      some (Bytes.saved
        { pages := ([docA].map PDFDoc.pages).flatten, meta := pipelineMeta 9 }
        { useObjectStreams := true, objectsPerTick := 10 }) :=
  high_level_metadata_reset 9 [docA] (some "2") (by decide) (by decide)

/-- C8: an input document with zero pages contributes exactly zero pages
to the merge — removing it from the input list leaves the merge result
unchanged — and a request whose inputs all have zero pages merges (without
error) to a zero-page document. -/
theorem zero_page_inputs (now : Nat) (pre post : List PDFDoc) (z : PDFDoc)
    (hz : z.pages = []) (docs : List PDFDoc) (hall : ∀ d ∈ docs, d.pages = []) :
    mergeAll now ((pre ++ z :: post).map some) = mergeAll now ((pre ++ post).map some) ∧
    mergeAll now (docs.map some) = Except.ok { pages := [], meta := createMeta now } := by
  constructor
  · rw [mergeAll_map_some, mergeAll_map_some]
    simp [mergedDoc, hz]
  · rw [mergeAll_map_some]
    have hflat : (docs.map PDFDoc.pages).flatten = [] := by
      rw [List.flatten_eq_nil_iff]
      intro x hx
      rcases List.mem_map.mp hx with ⟨d, hd, rfl⟩
      exact hall d hd
    rw [mergedDoc, hflat]

/-- C8 witness: a zero-page document between two others, and a request of
only zero-page documents. -/
theorem zero_page_inputs_witness :
    mergeAll 0 (([docA] ++ docZ :: [docB]).map some) =
      mergeAll 0 (([docA] ++ [docB]).map some) ∧
    mergeAll 0 ([docZ, docZ].map some) =
      Except.ok { pages := [], meta := createMeta 0 } :=
  zero_page_inputs 0 [docA] [docB] docZ (by decide) [docZ, docZ] (by decide)

/-- C9: on every request and every outcome, if the `part_001` handler
created a temp directory its removal is attempted in the `finally` block
(and succeeds whenever `fs.rm` does not fail, leaving no directory
behind), and a cleanup failure never changes the response returned to the
caller. -/
theorem temp_cleanup (env : CompressRoute.Env) (now : Nat) (req : Request) :
    (env.rmFails = false → (CompressRoute.POST env now req).tempDirRemains = false) ∧
    ((CompressRoute.POST env now req).tempDirCreated = true →
      CompressRoute.Event.rmTemp (!env.rmFails) ∈
        (CompressRoute.POST env now req).events) ∧
    (∀ b : Bool, (CompressRoute.POST { env with rmFails := b } now req).response =
      (CompressRoute.POST env now req).response) := by
  refine ⟨?_, ?_, ?_⟩
  · intro h
    simp [CompressRoute.POST, h]
  · intro h
    simp only [CompressRoute.POST] at h ⊢
    simp [h]
  · intro b
    rfl

/-- C9 witness: a level-1 request through the Ghostscript path with a
reliable `fs.rm`. -/
theorem temp_cleanup_witness :
    (CompressRoute.POST envGsOk 1 (mkReq [docA] (some "1"))).tempDirRemains = false :=
  (temp_cleanup envGsOk 1 (mkReq [docA] (some "1"))).1 rfl

/-- C10: on the no-compression path (`compressionLevel` parsing to 0) the
`route.ts` handler and the `part_001` handler return identical response
bodies for the same inputs and the same request clock, in every
environment: both run the same merge loop and serialize with the default
save options. -/
theorem level0_handlers_agree (env : CompressRoute.Env) (now : Nat) (req : Request)
    (hlv : parseIntJS (rawLevel req) = some 0) :
    (MergeRoute.POST now req).bodyBytes =
      (CompressRoute.POST env now req).response.bodyBytes := by
  by_cases h0 : req.files.length = 0
  · simp [MergeRoute.POST, CompressRoute.POST, CompressRoute.POST_try, h0,
      Response.bodyBytes]
  · cases hm : mergeAll now req.files with
    | error msg =>
      simp [MergeRoute.POST, CompressRoute.POST, CompressRoute.POST_try, h0, hlv,
        hm, levelInvalid, Response.bodyBytes]
    | ok merged =>
      simp [MergeRoute.POST, CompressRoute.POST, CompressRoute.POST_try, h0, hlv,
        hm, levelInvalid, Response.bodyBytes]

/-- C10 witness: one parseable file with the `compressionLevel` field
absent (defaulted to "0"). -/
theorem level0_handlers_agree_witness :
    (MergeRoute.POST 1 (mkReq [docA] none)).bodyBytes =
      (CompressRoute.POST envGsOk 1 (mkReq [docA] none)).response.bodyBytes :=
  level0_handlers_agree envGsOk 1 (mkReq [docA] none) (by decide)

end PdfMerge
